import Mathlib

/-! Verification development for the Spark Gemini chat client
(`src/ai.py`).  The file shallowly embeds the parts of the program the
claims are about: the conversation store (`save_conversation`,
`load_conversations`, `delete_all_conversations`), the response path
(`get_gemini_response`, `process_message`, the prompt construction in
`send_message`), configuration persistence (`save_model_selection`,
`save_font_size`, `load_model_selection`), the read-aloud entry point
(`read_last_response`, `get_last_gemini_response`) and the audio artifact
naming inside `generate_audio`.

Modelling conventions: Python exceptions are `Except.error`; files are
modelled by their parsed content, with `Option` distinguishing an absent
file; the external Gemini endpoint (`model.generate_content`) is a
parameter of the embedding, since its behaviour is outside the program;
wall-clock timestamps are parameters for the same reason.  Python
`str.strip()` is modelled by `pyStrip`, which drops whitespace from both
ends of the character list. -/

namespace Spark

/-- Python `str.strip()` with no argument: remove leading and trailing
whitespace. -/
def pyStrip (s : String) : String :=
  ⟨((s.data.dropWhile Char.isWhitespace).reverse.dropWhile
      Char.isWhitespace).reverse⟩

/-- One record of `conversations.json`:
`{"timestamp": ..., "input": ..., "output": ...}`, as built by
`save_conversation` (src/ai.py:766-770). -/
structure Exchange where
  timestamp : String
  input : String
  output : String
deriving DecidableEq, Repr

/-- The shape of the value returned by `model.generate_content(message)`,
as inspected by `get_gemini_response` (src/ai.py:631-636): an object with
a usable `.text` attribute, a list of candidates each carrying a `.text`,
or anything else. -/
inductive ResponseVal where
  | hasText (t : String)
  | asList (l : List String)
  | other
deriving DecidableEq, Repr

/-- Outcome of the external call `model.generate_content(message)`:
either a response value or a raised exception (its message). -/
abbrev GenerateContent := Except String ResponseVal

/-- The literal returned when no API key is configured (src/ai.py:625). -/
def missing_key_message : String := "API key is missing. Please set it first."

/-- The literal returned when the endpoint response has no usable text
(src/ai.py:636). -/
def no_valid_response_message : String :=
  "No valid response received from Gemini. Please try again."

/-- Python truthiness of the stored key: `not self.api_key`
(src/ai.py:624) is true when the key is `None` or the empty string. -/
def apiKeyFalsy : Option String → Bool
  | none => true
  | some k => k == ""

/-- The body of the `try` block of `get_gemini_response`
(src/ai.py:627-637): call the endpoint, then dispatch on the shape of its
response.  `Except.error` is an exception escaping the `try` body.  An
empty list falls through to the no-valid-response message, exactly as
`isinstance(response, list) and response` does. -/
def gemini_try_body (gen : GenerateContent) : Except String String := do
  let response ← gen
  match response with
  | .hasText t => pure (pyStrip t)
  | .asList [] => pure no_valid_response_message
  | .asList (t :: _) => pure (pyStrip t)
  | .other => pure no_valid_response_message

/-- `GeminiApp.get_gemini_response` (src/ai.py:614-640).  The missing-key
check precedes the `try`; the `except Exception` clause turns any raised
exception into a returned string.  The overall result is `Except.error`
only if the function would raise to its caller. -/
def get_gemini_response (api_key : Option String) (gen : GenerateContent) :
    Except String String :=
  if apiKeyFalsy api_key then
    .ok missing_key_message
  else
    match gemini_try_body gen with
    | .ok t => .ok t
    | .error e => .ok ("Error while fetching response: " ++ e)

/-- The fields of `GeminiApp` the claims observe, together with the
durable files.  `conversations` is the in-memory list; `convFile` the
parsed content of `conversations.json` (`none` = file absent);
`chatDisplay` the plain text of the chat widget; `displayed` the sequence
of `display_message` events (sender, message); `archives` the archive
files written by `delete_all_conversations` (filename, content). -/
structure AppState where
  api_key : Option String := none
  conversations : List Exchange := []
  convFile : Option (List Exchange) := none
  chatDisplay : String := ""
  displayed : List (String × String) := []
  archives : List (String × String) := []
deriving DecidableEq, Repr

/-- `display_message` (src/ai.py:645-691): renders one timestamped block
into the chat widget.  The HTML layout and the timestamp column are
presentation; the embedding records the (sender, message) event and
appends a rendered line to the widget's plain text. -/
def display_message (st : AppState) (sender message : String) : AppState :=
  { st with
    displayed := st.displayed ++ [(sender, message)]
    chatDisplay := st.chatDisplay ++ sender ++ ": " ++ message ++ "\n" }

/-- `GeminiApp.save_conversation` (src/ai.py:766-770): append the exchange
to the in-memory list, then rewrite `conversations.json` with the full
list.  `ts` stands for `QDateTime.currentDateTime().toString(...)`. -/
def save_conversation (st : AppState) (user_input response ts : String) :
    AppState :=
  let convs := st.conversations ++ [⟨ts, user_input, response⟩]
  { st with conversations := convs, convFile := some convs }

/-- `GeminiApp.load_conversations` (src/ai.py:772-779): if
`conversations.json` exists, its parsed content replaces the in-memory
list and every exchange is re-displayed in order; otherwise nothing
happens. -/
def load_conversations (st : AppState) : AppState :=
  match st.convFile with
  | none => st
  | some l =>
    l.foldl
      (fun s conv =>
        display_message (display_message s "Me" conv.input) "Gemini" conv.output)
      { st with conversations := l }

/-- A restart followed by the `load_conversations` call in `setup_ui`
(src/ai.py:376): a fresh `GeminiApp` starts with an empty in-memory list
and sees only the durable file. -/
def restart_and_load (convFile : Option (List Exchange)) : AppState :=
  load_conversations { convFile := convFile }

/-- `GeminiApp.process_message` (src/ai.py:599-612), the background unit
of work for one submission.  The spinner is UI-only and omitted.  The
`try` body obtains the response, emits it (rendered as a "Gemini" message
by `handle_response`, src/ai.py:642-643) and saves the conversation; the
`except` clause displays a "System" error and saves nothing.  `gen` is
the endpoint behaviour for this call, `ts` the wall-clock timestamp used
by `save_conversation`. -/
def process_message (st : AppState) (message : String)
    (gen : GenerateContent) (ts : String) : AppState :=
  match get_gemini_response st.api_key gen with
  | .ok response =>
      save_conversation (display_message st "Gemini" response) message response ts
  | .error e =>
      display_message st "System" ("Error: " ++ e)

/-- The prompt construction in `GeminiApp.send_message`
(src/ai.py:578-590): the stripped input, prefixed when the context
checkbox is checked by the stripped plain text of the chat widget under
the fixed label of the f-string at src/ai.py:588. -/
def build_prompt (include_context : Bool) (chat_display raw_input : String) :
    String :=
  let message := pyStrip raw_input
  if include_context then
    "Context for my prompt: " ++ pyStrip chat_display ++ "\n\n" ++ message
  else
    message

/-- `GeminiApp.delete_all_conversations` (src/ai.py:781-798), after the
user confirms the dialog.  Each file write may raise: `archive_ok` and
`reset_ok` say whether the archive write and the `conversations.json`
rewrite succeed.  A raise aborts the method at that point (the exception
propagates to Qt), leaving the mutations already made in place. -/
def delete_all_conversations (st : AppState) (ts : String)
    (archive_ok reset_ok : Bool) : AppState :=
  let archive_filename := "archived_conversation_" ++ ts ++ ".txt"
  if archive_ok then
    let st1 :=
      { st with archives := st.archives ++ [(archive_filename, st.chatDisplay)] }
    let st2 := { st1 with conversations := [] }
    if reset_ok then
      let st3 := { st2 with convFile := some ([] : List Exchange) }
      let st4 := { st3 with chatDisplay := "" }
      display_message st4 "System" "All conversations deleted and archived."
    else
      st2
  else
    st

/-- The enumerated model set (src/ai.py:160). -/
def available_models : List String :=
  ["gemini-1.5-flash", "gemini-1.5-flash-8b", "gemini-1.5-pro"]

/-- The default model (src/ai.py:161). -/
def default_model : String := "gemini-1.5-flash"

/-- Parsed content of `config.json`: a JSON object in which either key
may be absent. -/
structure ConfigJson where
  font_size : Option Nat := none
  selected_model : Option String := none
deriving DecidableEq, Repr

/-- `GeminiApp.load_model_selection` (src/ai.py:496-501):
`config.get("selected_model", self.default_model)` — the default covers
only an absent file or an absent key; any stored value is otherwise
returned unchecked. -/
def load_model_selection (config_file : Option ConfigJson) : String :=
  match config_file with
  | none => default_model
  | some config => config.selected_model.getD default_model

/-- The lookup `self.available_models.index(self.current_model)` in
`setup_ui` (src/ai.py:208): Python `list.index` raises `ValueError`
(modelled `none`) when the value is not in the list. -/
def setup_ui_model_index (current_model : String) : Option Nat :=
  available_models.findIdx? (· == current_model)

/-- `GeminiApp.save_model_selection` (src/ai.py:492-494): rewrites
`config.json` with the one-key object dumped there. -/
def save_model_selection (current_model : String) : ConfigJson :=
  { font_size := none, selected_model := some current_model }

/-- The one-key object dumped by `GeminiApp.save_font_size`
(src/ai.py:473-477). -/
def save_font_size_record (value : Nat) : ConfigJson :=
  { font_size := some value, selected_model := none }

/-- The filename `save_font_size` opens for writing: the literal `""` at
src/ai.py:476. -/
def save_font_size_filename : String := ""

/-- The filename every other configuration access uses. -/
def config_filename : String := "config.json"

/-- `GeminiApp.get_last_gemini_response` (src/ai.py:810-813): the output
of the last exchange, `None` when the list is empty. -/
def get_last_gemini_response (conversations : List Exchange) : Option String :=
  match conversations.getLast? with
  | some conv => some conv.output
  | none => none

/-- The observable action of one `read_last_response` call. -/
inductive ReadAction where
  | stopped_playback
  | reported_no_response
  | dispatched_synthesis (text : String)
deriving DecidableEq, Repr

/-- `GeminiApp.read_last_response` (src/ai.py:726-736): stop playback if
audio is playing; report locally when `not last_response` (Python
truthiness: `None` or the empty string); otherwise dispatch the
background synthesis for that text. -/
def read_last_response (is_audio_playing : Bool)
    (conversations : List Exchange) : ReadAction :=
  if is_audio_playing then
    .stopped_playback
  else
    match get_last_gemini_response conversations with
    | none => .reported_no_response
    | some t =>
      if t == "" then .reported_no_response else .dispatched_synthesis t

/-- The artifact path built in `generate_audio` (src/ai.py:745-746):
`os.path.join("audio", "AI-response_" + timestamp + ".mp3")`. -/
def audio_artifact_path (timestamp : String) : String :=
  "audio/AI-response_" ++ timestamp ++ ".mp3"

/-- The timestamp `QDateTime.currentDateTime().toString("yyyyMMdd_hhmmss")`
has one-second precision: a call at wall-clock millisecond `ms` renders
the second `ms / 1000`.  The rendering of that second into the date
string is abstracted by `toString`. -/
def audio_timestamp (ms : Nat) : String := toString (ms / 1000)

/-- The artifact paths produced by one session's `generate_audio` calls,
given the wall-clock milliseconds at which each call reads the clock. -/
def session_audio_paths (call_times_ms : List Nat) : List String :=
  call_times_ms.map (fun ms => audio_artifact_path (audio_timestamp ms))

/-- A finite sequence of `save_conversation` calls; each entry is
(input, output, timestamp). -/
def run_appends (st : AppState) (ops : List (String × String × String)) :
    AppState :=
  ops.foldl (fun s op => save_conversation s op.1 op.2.1 op.2.2) st

/-- The exchanges a sequence of (input, output, timestamp) appends
creates, in order. -/
def exchanges_of (ops : List (String × String × String)) : List Exchange :=
  ops.map (fun op => ⟨op.2.2, op.1, op.2.1⟩)

/-- The durable file mirrors the in-memory list: either the parsed file
content equals the in-memory sequence, or no file was ever written and the
in-memory sequence is still empty (the state of a fresh install). -/
def Mirrors (st : AppState) : Prop :=
  st.convFile = some st.conversations ∨
    (st.convFile = none ∧ st.conversations = [])

/-- A concrete state with one saved exchange and a non-empty transcript,
used to exercise `delete_all_conversations`. -/
def clear_before_state : AppState :=
  { conversations := [⟨"t0", "hi", "hello"⟩],
    convFile := some [⟨"t0", "hi", "hello"⟩],
    chatDisplay := "transcript" }

/- Helper lemmas shared by the claim theorems. -/

theorem display_message_conversations (st : AppState) (sender message : String) :
    (display_message st sender message).conversations = st.conversations := rfl

theorem replay_conversations (l : List Exchange) (st : AppState) :
    (l.foldl
        (fun s conv =>
          display_message (display_message s "Me" conv.input) "Gemini" conv.output)
        st).conversations = st.conversations := by
  induction l generalizing st with
  | nil => rfl
  | cons c cs ih => simpa [display_message] using ih _

theorem load_conversations_of_some (st : AppState) (l : List Exchange)
    (h : st.convFile = some l) : (load_conversations st).conversations = l := by
  unfold load_conversations
  rw [h]
  simpa using replay_conversations l _

theorem run_appends_cons (st : AppState) (o : String × String × String)
    (os : List (String × String × String)) :
    run_appends st (o :: os)
      = run_appends (save_conversation st o.1 o.2.1 o.2.2) os := rfl

theorem run_appends_conversations (ops : List (String × String × String))
    (st : AppState) :
    (run_appends st ops).conversations = st.conversations ++ exchanges_of ops := by
  induction ops generalizing st with
  | nil => simp [run_appends, exchanges_of]
  | cons o os ih =>
    rw [run_appends_cons, ih]
    simp [save_conversation, exchanges_of]

theorem run_appends_mirrors (ops : List (String × String × String))
    (st : AppState) (h : Mirrors st) : Mirrors (run_appends st ops) := by
  induction ops generalizing st with
  | nil => exact h
  | cons o os ih =>
    rw [run_appends_cons]
    exact ih _ (Or.inl rfl)

theorem gemini_response_ok (api_key : Option String) (gen : GenerateContent) :
    ∃ r, get_gemini_response api_key gen = .ok r := by
  unfold get_gemini_response
  split
  · exact ⟨_, rfl⟩
  · split
    · exact ⟨_, rfl⟩
    · exact ⟨_, rfl⟩

/-- Claim C1 counterexample: with no API key configured — a
credential-missing failure of the background unit of work —
`process_message "Hello"` still appends an Exchange, with the error text
as its output, and renders it as a "Gemini" reply rather than a "System"
error; the claim says no Exchange is appended on failure. -/
theorem process_message_appends_on_missing_key :
    (process_message {} "Hello" (Except.ok (ResponseVal.hasText "unused"))
        "2026-01-01 00:00:00").conversations
      = [⟨"2026-01-01 00:00:00", "Hello", missing_key_message⟩] ∧
    (process_message {} "Hello" (Except.ok (ResponseVal.hasText "unused"))
        "2026-01-01 00:00:00").displayed
      = [("Gemini", missing_key_message)] := by
  exact ⟨rfl, rfl⟩

/-- Claim C1 (amended): every processed submission appends exactly one
Exchange whose output is whatever string `get_gemini_response` returned —
on failure that is the descriptive error text — rendered as a "Gemini"
reply; the no-append "System" branch is unreachable for generation
failures, because `get_gemini_response` never raises. -/
theorem process_message_always_appends (st : AppState) (message : String)
    (gen : GenerateContent) (ts : String) :
    ∃ r, get_gemini_response st.api_key gen = .ok r ∧
      (process_message st message gen ts).conversations
          = st.conversations ++ [⟨ts, message, r⟩] ∧
      (process_message st message gen ts).convFile
          = some (st.conversations ++ [⟨ts, message, r⟩]) ∧
      (process_message st message gen ts).displayed
          = st.displayed ++ [("Gemini", r)] := by
  obtain ⟨r, hr⟩ := gemini_response_ok st.api_key gen
  refine ⟨r, hr, ?_, ?_, ?_⟩ <;>
    simp [process_message, hr, save_conversation, display_message]

/-- Claim C2: for every finite sequence of successful `save_conversation`
calls starting from the empty store, loading the durable file after a
restart returns exactly the appended exchanges, in order, with their
fields unchanged. -/
theorem append_load_roundtrip (ops : List (String × String × String)) :
    (restart_and_load (run_appends {} ops).convFile).conversations
      = exchanges_of ops := by
  have hm : Mirrors (run_appends {} ops) :=
    run_appends_mirrors ops {} (Or.inr ⟨rfl, rfl⟩)
  have hc : (run_appends {} ops).conversations = exchanges_of ops := by
    simpa using run_appends_conversations ops {}
  cases hm with
  | inl h =>
    rw [h, hc]
    exact load_conversations_of_some _ _ rfl
  | inr h =>
    rw [h.1, ← hc, h.2]
    rfl

/-- Claim C3 counterexample: when the archive write succeeds but the
`conversations.json` rewrite then fails, the archive artifact exists
while a later load still returns the old non-empty sequence — an
observable partial effect, so `delete_all_conversations` is not
all-or-nothing. -/
theorem clear_not_all_or_nothing :
    clear_before_state.archives = [] ∧
    (delete_all_conversations clear_before_state "20260101_000000" true
        false).archives
      = [("archived_conversation_20260101_000000.txt", "transcript")] ∧
    (restart_and_load
        (delete_all_conversations clear_before_state "20260101_000000" true
          false).convFile).conversations
      = [⟨"t0", "hi", "hello"⟩] := by
  exact ⟨rfl, rfl, rfl⟩

/-- Claim C3 (amended): when both writes succeed, the call archives
exactly the prior transcript, resets the durable log, and a later load
returns the empty sequence; when the archive write fails nothing changes;
but when the reset fails after a successful archive, the archive is in
place while the durable log is unchanged. -/
theorem clear_success_and_failure_behaviour (st : AppState) (ts : String) :
    (delete_all_conversations st ts true true).archives
        = st.archives
            ++ [("archived_conversation_" ++ ts ++ ".txt", st.chatDisplay)] ∧
    (delete_all_conversations st ts true true).convFile = some [] ∧
    (restart_and_load
        (delete_all_conversations st ts true true).convFile).conversations
        = [] ∧
    delete_all_conversations st ts false true = st ∧
    (delete_all_conversations st ts true false).convFile = st.convFile ∧
    (delete_all_conversations st ts true false).archives
        = st.archives
            ++ [("archived_conversation_" ++ ts ++ ".txt", st.chatDisplay)] := by
  refine ⟨rfl, rfl, ?_, rfl, rfl, rfl⟩
  rfl

/-- Claim C4 counterexample: with the credential absent,
`get_gemini_response` returns a normal text result (`Except.ok` with the
fixed message) — it does not fail with a typed error, contrary to the
claim's "rather than returning a normal text result". -/
theorem missing_credential_not_typed_error :
    get_gemini_response none (Except.ok (ResponseVal.hasText "hi"))
      = Except.ok missing_key_message := rfl

/-- Claim C4 (amended): with the credential absent or empty, the call
returns the fixed descriptive text as a normal result, checked before any
endpoint interaction — the result does not depend on the endpoint's
behaviour at all. -/
theorem missing_credential_fails_fast (api_key : Option String)
    (h : apiKeyFalsy api_key = true) (gen gen2 : GenerateContent) :
    get_gemini_response api_key gen = .ok missing_key_message ∧
    get_gemini_response api_key gen = get_gemini_response api_key gen2 := by
  constructor <;> simp [get_gemini_response, h]

/-- Witness for the amended C4 at the empty-string credential and a
network-failure endpoint. -/
theorem missing_credential_fails_fast_witness :
    get_gemini_response (some "") (Except.error "network down")
        = Except.ok missing_key_message ∧
    get_gemini_response (some "") (Except.error "network down")
        = get_gemini_response (some "") (Except.ok ResponseVal.other) :=
  missing_credential_fails_fast (some "") rfl (Except.error "network down")
    (Except.ok ResponseVal.other)

/-- Claim C5 counterexample: an unrecognized persisted model value is
returned as-is by `load_model_selection`, is not in the enumerated set,
and the startup index lookup of `setup_ui` fails (Python `list.index`
raises `ValueError`, so startup crashes) — the default is not applied. -/
theorem unrecognized_model_not_defaulted :
    load_model_selection (some { selected_model := some "gpt-4" }) = "gpt-4" ∧
    "gpt-4" ∉ available_models ∧
    setup_ui_model_index "gpt-4" = none := by
  refine ⟨rfl, by decide, by decide⟩

/-- Claim C5 (amended): the default model is applied only when the config
file is absent or the `selected_model` key is missing; in those cases the
loaded selection is in the enumerated set and the UI index lookup
succeeds. -/
theorem load_model_selection_default_cases (config_file : Option ConfigJson)
    (h : config_file = none ∨
      ∃ c, config_file = some c ∧ c.selected_model = none) :
    load_model_selection config_file = default_model ∧
    default_model ∈ available_models ∧
    setup_ui_model_index (load_model_selection config_file) = some 0 := by
  have hd : load_model_selection config_file = default_model := by
    rcases h with h | ⟨c, hc, hm⟩
    · rw [h]; rfl
    · rw [hc]; simp [load_model_selection, hm]
  rw [hd]
  exact ⟨rfl, by decide, by decide⟩

/-- Witness for the amended C5 at an absent config file. -/
theorem load_model_selection_default_witness :
    load_model_selection none = default_model ∧
    default_model ∈ available_models ∧
    setup_ui_model_index (load_model_selection none) = some 0 :=
  load_model_selection_default_cases none (Or.inl rfl)

/-- Claim C6 counterexample: changing the model rewrites `config.json`
with a one-key object — the written record carries no `font_size` at all,
so a previously stored font size is not "present and unchanged". -/
theorem save_model_selection_drops_font_size :
    save_model_selection "gemini-1.5-pro"
        = { font_size := none, selected_model := some "gemini-1.5-pro" } ∧
    (save_model_selection "gemini-1.5-pro").font_size = none := ⟨rfl, rfl⟩

/-- Claim C6 (amended): each save routine writes a record holding only
its own field (the other key is dropped), and `save_font_size` does not
even target `config.json` — it opens the literal empty filename. -/
theorem config_saves_single_field (m : String) (v : Nat) :
    save_model_selection m = { font_size := none, selected_model := some m } ∧
    save_font_size_record v = { font_size := some v, selected_model := none } ∧
    save_font_size_filename ≠ config_filename := by
  refine ⟨rfl, rfl, by decide⟩

/-- Claim C7: while audio is playing, `read_last_response` stops playback
and dispatches nothing; while not playing with an empty store, it reports
the local no-response message and dispatches nothing. -/
theorem read_last_response_gating (is_audio_playing : Bool)
    (conversations : List Exchange) :
    (is_audio_playing = true →
      read_last_response is_audio_playing conversations
          = ReadAction.stopped_playback) ∧
    (is_audio_playing = false → conversations = [] →
      read_last_response is_audio_playing conversations
          = ReadAction.reported_no_response) := by
  constructor
  · intro h
    simp [read_last_response, h]
  · intro h h2
    simp [read_last_response, h, h2, get_last_gemini_response]

/-- Witness for C7: the playing state with a non-empty store, and the
idle state with an empty store. -/
theorem read_last_response_gating_witness :
    read_last_response true [⟨"t", "q", "a"⟩] = ReadAction.stopped_playback ∧
    read_last_response false [] = ReadAction.reported_no_response :=
  ⟨(read_last_response_gating true [⟨"t", "q", "a"⟩]).1 rfl,
   (read_last_response_gating false []).2 rfl rfl⟩

/-- Claim C8 counterexample: two synthesize calls half a second apart
(wall-clock milliseconds 1000 and 1500) fall within the same second of
the `yyyyMMdd_hhmmss` timestamp, so they produce the same artifact path —
the later call overwrites the earlier artifact. -/
theorem rapid_synthesize_calls_collide :
    session_audio_paths [1000, 1500]
        = ["audio/AI-response_1.mp3", "audio/AI-response_1.mp3"] ∧
    ¬ (session_audio_paths [1000, 1500]).Nodup := by
  exact ⟨rfl, by decide⟩

/-- Claim C8 (amended): the artifact path determines the timestamp
string, so calls whose second-precision timestamp strings differ never
collide; collisions happen exactly for calls within the same second. -/
theorem audio_artifact_path_injective (ts1 ts2 : String)
    (h : audio_artifact_path ts1 = audio_artifact_path ts2) : ts1 = ts2 := by
  have hd : "audio/AI-response_".data ++ (ts1.data ++ ".mp3".data)
      = "audio/AI-response_".data ++ (ts2.data ++ ".mp3".data) := by
    have h2 := congrArg String.data h
    simpa [audio_artifact_path, String.data_append, List.append_assoc] using h2
  have h1 : ts1.data = ts2.data :=
    List.append_cancel_right (List.append_cancel_left hd)
  exact String.ext h1

/-- Witness for the amended C8 at a concrete timestamp string. -/
theorem audio_artifact_path_injective_witness :
    ("20260101_120000" : String) = "20260101_120000" :=
  audio_artifact_path_injective "20260101_120000" "20260101_120000" rfl

/-- Claim C9: for a raw input that is non-empty after stripping, the
contextual prompt equals a non-empty context prefix concatenated with the
context-free prompt for the same input and transcript. -/
theorem context_prompt_extends (chat_display raw_input : String)
    (h : pyStrip raw_input ≠ "") :
    build_prompt true chat_display raw_input
        = ("Context for my prompt: " ++ pyStrip chat_display ++ "\n\n")
            ++ build_prompt false chat_display raw_input ∧
    ("Context for my prompt: " ++ pyStrip chat_display ++ "\n\n") ≠ "" := by
  constructor
  · simp [build_prompt, String.append_assoc]
  · intro heq
    have hl := congrArg String.length heq
    rw [String.length_append, String.length_append] at hl
    have h23 : ("Context for my prompt: " : String).length = 23 := rfl
    have h2 : ("\n\n" : String).length = 2 := rfl
    have h0 : ("" : String).length = 0 := rfl
    omega

/-- Witness for C9 at a concrete transcript and input. -/
theorem context_prompt_extends_witness :
    build_prompt true "prior chat" "hello"
        = ("Context for my prompt: " ++ pyStrip "prior chat" ++ "\n\n")
            ++ build_prompt false "prior chat" "hello" ∧
    ("Context for my prompt: " ++ pyStrip "prior chat" ++ "\n\n") ≠ "" :=
  context_prompt_extends "prior chat" "hello" (by decide)

/-- Claim C10: `get_gemini_response` is total — it returns a string for
every credential state and endpoint behaviour, never raising: a missing
credential, a raised endpoint exception, and an endpoint response without
usable text are each mapped to a descriptive text result. -/
theorem get_gemini_response_total (api_key : Option String)
    (gen : GenerateContent) (e : String) :
    (∃ s, get_gemini_response api_key gen = .ok s) ∧
    get_gemini_response none gen = .ok missing_key_message ∧
    get_gemini_response (some "k") (.error e)
        = .ok ("Error while fetching response: " ++ e) ∧
    get_gemini_response (some "k") (.ok .other)
        = .ok no_valid_response_message := by
  refine ⟨gemini_response_ok api_key gen, rfl, rfl, rfl⟩

end Spark
